import Mathlib

/-!
Verification of the content-scraper pipeline (couponing-canada-admin).

This file gives a shallow embedding of the core data model and operations of
the repository and proves properties of them:

* the generic field-path extractor of src/scraper/modules/base.py
  (BaseScraperModule._extract_field_value);
* the cached HTTP request logic (BaseScraperModule._make_request) and the
  response handling of RSSScraperModule.scrape_feed;
* the content data model (src/scraper/models/content.py) with the pydantic
  field validators embedded as explicit checks and transformations;
* the enhancement orchestration (ContentPipeline._enhance_content,
  ContentEnhancerAgent.enhance_content) with the LLM capability abstracted
  as oracle outcomes;
* quality filtering (QualityValidatorAgent.filter_high_quality_content);
* the output projector (convert_to_deal_output and the DealOutput
  validators of src/scraper/models/output.py);
* the pipeline orchestrator (ContentPipeline.run_pipeline).

Modelling conventions: Python floats are modelled as rationals; Python None
for optional values is Option.none; exceptions are Except.error; datetime
values are carried as already-formatted strings (the current date is passed
as an explicit parameter where datetime.now() is used).  URL-typed fields
are carried as strings; the pydantic HttpUrl well-formedness check of
EnhancedContent (content.py line 90) is modelled as an explicit scheme check
(isHttpUrl) in mkEnhancedContent, together with the excerpt length bounds of
that model, since those checks decide the behavior of the fallback paths
that supply the relative placeholder image path.  RawContent values are
taken as given (their validation happens in the scrapers, whose guarantees
appear as hypotheses where a proof needs them).  Length bounds of fields no
claim or fallback path touches (title and category maxima, note length) are
not modelled; every explicit field_validator of the source is.
-/

set_option maxRecDepth 40000

namespace Scraper

/-! ## Python string primitives

All the string operations the source uses are implemented structurally on
the character list of the string, so every definition in this file can be
evaluated by the kernel on concrete inputs. -/

/-- Emptiness of a string. -/
def strIsEmpty (s : String) : Bool :=
  s.data.isEmpty

/-- Python str.strip(): whitespace removed from both ends. -/
def pyStrip (s : String) : String :=
  ⟨((s.data.dropWhile Char.isWhitespace).reverse.dropWhile Char.isWhitespace).reverse⟩

/-- Python str.lower(). -/
def pyLower (s : String) : String :=
  ⟨s.data.map Char.toLower⟩

/-- The first n characters of a string. -/
def strTake (n : Nat) (s : String) : String :=
  ⟨s.data.take n⟩

/-- The string without its last n characters. -/
def strDropRight (n : Nat) (s : String) : String :=
  ⟨s.data.take (s.data.length - n)⟩

/-- Whether p is a prefix of l, character by character. -/
def listStartsWith : List Char → List Char → Bool
  | [], _ => true
  | _ :: _, [] => false
  | p :: ps, c :: cs => p = c && listStartsWith ps cs

/-- Python str.endswith on a concrete suffix. -/
def strEndsWith (s suffix : String) : Bool :=
  listStartsWith suffix.data.reverse s.data.reverse

/-- The shape check of the pydantic HttpUrl type, at the precision the
embedded code paths depend on: the value must be an absolute URL with an
http or https scheme and a non-empty remainder.  Pydantic checks more of
the URL syntax; what decides behavior here is that relative paths such as
the placeholder asset path are rejected while the absolute http(s) URLs the
scrapers produce are accepted. -/
def isHttpUrl (s : String) : Bool :=
  (listStartsWith "http://".data s.data && decide (7 < s.data.length)) ||
    (listStartsWith "https://".data s.data && decide (8 < s.data.length))

/-- Python str.rstrip with the character set of a punctuation run: drops the
trailing characters belonging to the set. -/
def pyRStrip (s : String) (set : List Char) : String :=
  ⟨(s.data.reverse.dropWhile (fun c => set.contains c)).reverse⟩

/-- Python str.title(): the first cased character of every run of letters is
upper-cased, the following letters are lower-cased, other characters are kept. -/
def pyTitleGo : Bool → List Char → List Char
  | _, [] => []
  | prev, c :: cs =>
    if c.isAlpha then
      (if prev then c.toLower else c.toUpper) :: pyTitleGo true cs
    else
      c :: pyTitleGo false cs

/-- Python str.title() on a string. -/
def pyTitle (s : String) : String := ⟨pyTitleGo false s.data⟩

/-- Substring search over character lists: whether the needle occurs as a
contiguous run. -/
def listContainsSub (needle : List Char) : List Char → Bool
  | [] => needle.isEmpty
  | c :: cs => listStartsWith needle (c :: cs) || listContainsSub needle cs

/-- Python substring containment, the needle in haystack test. -/
def containsStr (hay needle : String) : Bool :=
  listContainsSub needle.data hay.data

/-- Python str.split on a single separator character, keeping empty parts
(so the empty string splits into one empty part). -/
def splitChar (sep : Char) : List Char → List (List Char)
  | [] => [[]]
  | c :: cs =>
    match splitChar sep cs with
    | [] => [[]]
    | g :: gs => if c = sep then [] :: g :: gs else (c :: g) :: gs

/-- The remainder of the list after the first occurrence of the needle, or
none when the needle never occurs. -/
def dropThroughFirst (needle : List Char) : List Char → Option (List Char)
  | [] => if needle.isEmpty then some [] else none
  | c :: cs =>
    if listStartsWith needle (c :: cs) then some ((c :: cs).drop needle.length)
    else dropThroughFirst needle cs

/-- Python int() applied to an isdigit()-checked path segment: all-digit
non-empty strings parse, everything else is rejected. -/
def pyDigits? (s : String) : Option Nat :=
  if s.data ≠ [] ∧ s.data.all Char.isDigit then
    some (s.data.foldl (fun a c => a * 10 + (c.toNat - 48)) 0)
  else none

/-- Python truthiness-based defaulting on an optional string, as in the
source idiom (value or fallback): None and the empty string are falsy. -/
def pyOr (o : Option String) (d : String) : String :=
  match o with
  | some s => if strIsEmpty s then d else s
  | none => d

/-- Python int() truncation toward zero, on rationals. -/
def pyIntTrunc (q : ℚ) : ℤ :=
  if 0 ≤ q then ⌊q⌋ else ⌈q⌉

/-! ## Generic JSON-like document trees

The field extractor of BaseScraperModule._extract_field_value walks an
arbitrary nested dict and list document.  The document shape is embedded as a
generic tagged tree.  Mappings are association lists in document order. -/

/-- A generic document node: the values the extractor can meet. -/
inductive JVal where
  | null : JVal
  | str : String → JVal
  | num : Int → JVal
  | bool : Bool → JVal
  | arr : List JVal → JVal
  | obj : List (String × JVal) → JVal

/-- Python repr of a document node, used by str() on containers. -/
def pyRepr : JVal → String
  | .null => "None"
  | .str s => "\x27" ++ s ++ "\x27"
  | .num n => toString n
  | .bool b => if b then "True" else "False"
  | .arr xs => "[" ++ String.intercalate ", " (xs.attach.map (fun x => pyRepr x.1)) ++ "]"
  | .obj fs =>
    "\x7b" ++
      String.intercalate ", "
        (fs.attach.map (fun f => "\x27" ++ f.1.1 ++ "\x27: " ++ pyRepr f.1.2)) ++
    "\x7d"
decreasing_by
  · have := List.sizeOf_lt_of_mem x.2
    simp_wf
    omega
  · have h1 := List.sizeOf_lt_of_mem f.2
    have h2 : sizeOf f.1.2 < sizeOf f.1 := by
      obtain ⟨a, b⟩ := f.1
      simp [Prod.mk.sizeOf_spec]
    simp_wf
    omega

/-- Python str() of a document node: strings render without quotes at top
level, containers render as their repr. -/
def pyStr : JVal → String
  | .null => "None"
  | .str s => s
  | .num n => toString n
  | .bool b => if b then "True" else "False"
  | .arr xs => pyRepr (.arr xs)
  | .obj fs => pyRepr (.obj fs)

/-- Terminal value coercion of _extract_field_value: scalars are stringified
and stripped; a mapping with a url key yields that value stringified; a
non-empty sequence yields its stringified first element; other containers
yield their string form.  A null terminal yields none (the source returns
None). -/
def coerceTerminal : JVal → Option String
  | .null => none
  | .str s => some (pyStrip s)
  | .num n => some (pyStrip (toString n))
  | .bool b => some (if b then "True" else "False")
  | .obj fs =>
    match List.lookup "url" fs with
    | some v => some (pyStr v)
    | none => some (pyRepr (.obj fs))
  | .arr [] => some (pyRepr (.arr []))
  | .arr (x :: _) => some (pyStr x)

/-- Path traversal of _extract_field_value over the already-split dot path:
a mapping is indexed by key (a key that is absent or maps to null stops the
walk with none), a sequence is indexed by an all-digit segment that is in
range, and any other combination is a type mismatch yielding none. -/
def extractParts : JVal → List String → Option String
  | v, [] => coerceTerminal v
  | .obj fs, p :: rest =>
    (match List.lookup p fs with
     | none => none
     | some .null => none
     | some v => extractParts v rest)
  | .arr xs, p :: rest =>
    (match pyDigits? p with
     | none => none
     | some i =>
       match xs.get? i with
       | none => none
       | some .null => none
       | some v => extractParts v rest)
  | .null, _ :: _ => none
  | .str _, _ :: _ => none
  | .num _, _ :: _ => none
  | .bool _, _ :: _ => none

/-- BaseScraperModule._extract_field_value: split the field path on dots and
traverse.  The source wraps the walk in a try and except returning None; the
embedding is total, so the catch-all is the none results themselves. -/
def extract_field_value (data : JVal) (field_path : String) : Option String :=
  extractParts data ((splitChar '.' field_path.data).map (fun l => (⟨l⟩ : String)))

/-! ## HTTP fetch layer with conditional-request cache

BaseScraperModule keeps a per-URL cache of the last observed ETag and
Last-Modified response headers.  The network itself is abstracted: one call
of _make_request is driven by the response the server would give (none for a
requests.RequestException, which also covers the retry-adapter exhausting its
budget on the retryable status codes). -/

/-- One cache entry of BaseScraperModule._cache: the stored ETag and
Last-Modified values for a URL. -/
structure CacheEntry where
  etag : Option String
  lastModified : Option String
deriving DecidableEq

/-- The per-URL header cache, keyed by URL, in insertion order. -/
abbrev Cache := List (String × CacheEntry)

/-- Python dict assignment on the cache: replace the entry of the key if
present, append otherwise. -/
def cacheSet (cache : Cache) (url : String) (e : CacheEntry) : Cache :=
  match cache with
  | [] => [(url, e)]
  | (k, v) :: rest =>
    if k = url then (url, e) :: rest else (k, v) :: cacheSet rest url e

/-- An HTTP response as _make_request observes it: status code, the two
cacheable headers, and the body bytes. -/
structure HttpResponse where
  status : Nat
  etag : Option String
  lastModified : Option String
  body : String
deriving DecidableEq

/-- BaseScraperModule._make_request: the response argument is none when the
GET raises (network failure, or the retry budget exhausted on a retryable
status).  On 304 the function returns None before touching the cache; on any
other response the cache entry is overwritten with the observed ETag and
Last-Modified pair when at least one is present, and only then
raise_for_status turns a 4xx or 5xx into the None failure result. -/
def makeRequest (cache : Cache) (url : String) (use_cache : Bool)
    (resp : Option HttpResponse) : Option HttpResponse × Cache :=
  match resp with
  | none => (none, cache)
  | some r =>
    if r.status = 304 then
      (none, cache)
    else
      let cache' :=
        if use_cache ∧ (r.etag.isSome ∨ r.lastModified.isSome) then
          cacheSet cache url ⟨r.etag, r.lastModified⟩
        else cache
      if 400 ≤ r.status then (none, cache') else (some r, cache')

/-! ## Content data model (src/scraper/models/content.py) -/

/-- ContentStatus: the processing states, also used as the recommendation
vocabulary of the quality validator. -/
inductive ContentStatus where
  | raw
  | enhanced
  | validated
  | rejected
  | published
deriving DecidableEq

/-- RawContent: one scraped item before AI processing.  The source_data
debugging blob is not modelled; scraped_at is carried as the already
formatted date string the orchestrator derives from it via strftime. -/
structure RawContent where
  title : String
  url : String
  image : Option String
  excerpt : Option String
  category : Option String
  date : Option String
  scraped_at_date : String
  scraper_type : String
  source_url : String
deriving DecidableEq

/-- EnhancedContent: one item after the enhancement stage, with the image,
excerpt, category and date fields now required. -/
structure EnhancedContent where
  title : String
  url : String
  image : String
  excerpt : String
  category : String
  date : String
  quality_score : ℚ
  ai_generated_fields : List String
  enhancement_notes : Option String
  original_content : Option RawContent
deriving DecidableEq, Inhabited

/-- The field names ai_generated_fields may mention, from the
validate_ai_fields validator of EnhancedContent. -/
def aiFieldAllowed (f : String) : Bool :=
  f == "title" || f == "excerpt" || f == "category" || f == "image" || f == "date"

/-- The excerpt validator of EnhancedContent: a complete short excerpt must
not end with an ellipsis, so one shorter than 500 characters has a trailing
ellipsis dropped and is stripped again. -/
def stripShortEllipsis (s : String) : String :=
  if s.data.length < 500 ∧ strEndsWith s "..." then pyStrip (strDropRight 3 s) else s

/-- Construction of an EnhancedContent value through its pydantic
validation: every string field is stripped (str_strip_whitespace); the url
and image fields must pass the HttpUrl check, so in particular the relative
placeholder asset path is rejected; the stripped excerpt must fit the
min_length 10 and max_length 500 field bounds (checked before the
field_validator runs, so the subsequent ellipsis trim may still shorten the
stored value); the title/excerpt/category validators reject blank values
and apply their transformations (trailing punctuation run dropped from the
title, short ellipsis dropped from the excerpt, the category title-cased);
the ai_generated_fields entries must come from the allowed set; and the
quality score must lie in the unit interval. -/
def mkEnhancedContent (title url image excerpt category date : String)
    (quality_score : ℚ) (ai_generated_fields : List String)
    (enhancement_notes : Option String) (original_content : Option RawContent) :
    Except Unit EnhancedContent :=
  if strIsEmpty (pyStrip title) then .error ()
  else if !(isHttpUrl (pyStrip url)) then .error ()
  else if !(isHttpUrl (pyStrip image)) then .error ()
  else if (pyStrip excerpt).data.length < 10 ∨ 500 < (pyStrip excerpt).data.length then .error ()
  else if strIsEmpty (pyStrip excerpt) then .error ()
  else if strIsEmpty (pyStrip category) then .error ()
  else if !(ai_generated_fields.all aiFieldAllowed) then .error ()
  else if quality_score < 0 ∨ 1 < quality_score then .error ()
  else .ok
    { title := pyRStrip (pyStrip title) ['!', '?', '.']
      url := pyStrip url
      image := pyStrip image
      excerpt := stripShortEllipsis (pyStrip excerpt)
      category := pyTitle (pyStrip category)
      date := pyStrip date
      quality_score := quality_score
      ai_generated_fields := ai_generated_fields
      enhancement_notes := enhancement_notes
      original_content := original_content }

/-! ## Quality validation model (src/scraper/agents/quality_validator.py) -/

/-- QualityMetrics: the five per-dimension scores. -/
structure QualityMetrics where
  completeness_score : ℚ
  relevance_score : ℚ
  engagement_score : ℚ
  uniqueness_score : ℚ
  language_quality_score : ℚ
deriving DecidableEq

/-- QualityResult: the validation verdict for one item.  Issue tags,
strengths, suggestions and reasoning are carried as strings. -/
structure QualityResult where
  overall_quality_score : ℚ
  recommendation : ContentStatus
  quality_metrics : QualityMetrics
  issues_found : List String
  strengths : List String
  improvement_suggestions : List String
  reasoning : String
deriving DecidableEq

/-- QualityValidatorAgent.filter_high_quality_content: walk the zipped
content and result lists; an item whose recommendation is validated or
enhanced is kept with its quality_score overwritten by the validated overall
score, every other item is dropped. -/
def filterHighQualityGo : List (EnhancedContent × QualityResult) → List EnhancedContent
  | [] => []
  | (c, q) :: rest =>
    if q.recommendation = ContentStatus.validated ∨
        q.recommendation = ContentStatus.enhanced then
      { c with quality_score := q.overall_quality_score } :: filterHighQualityGo rest
    else
      filterHighQualityGo rest

/-- QualityValidatorAgent.filter_high_quality_content on the two lists. -/
def filter_high_quality_content (content_list : List EnhancedContent)
    (quality_results : List QualityResult) : List EnhancedContent :=
  filterHighQualityGo (content_list.zip quality_results)

/-- RSSScraperModule.scrape_feed response handling: the conditional request
is made through the cache; a None result (304, or a failed request) yields
the empty item list; otherwise the feed body is parsed and at most the first
50 entries are extracted.  Feedparser and the per-entry field extraction are
abstracted into the parsed argument: the items the entry loop would produce
from the body. -/
def scrape_feed (cache : Cache) (feed_url : String) (resp : Option HttpResponse)
    (parsed : List RawContent) : List RawContent × Cache :=
  let (r, cache') := makeRequest cache feed_url true resp
  match r with
  | none => ([], cache')
  | some _ => (parsed.take 50, cache')

/-! ## Content enhancement stage (src/scraper/agents/content_enhancer.py)

The LLM capability is abstracted as the outcomes of the three agent calls
enhance_content can make: the description enhancement, the conditional title
improvement, and the batched generation of missing fields (a string-keyed
mapping).  An Except.error outcome is an exception escaping the call. -/

/-- The outcomes of the agent runs available to one enhance_content call. -/
structure LLMOut where
  excerptResult : Except Unit String
  titleResult : Except Unit String
  genResult : Except Unit (List (String × String))

/-- The title-improvement trigger of enhance_content: a title shorter than
30 characters, or one missing every engagement marker word. -/
def titleNeedsImprovement (t : String) : Bool :=
  t.data.length < 30 ||
    !(["how", "why", "what", "best", "top"].any (fun w => containsStr (pyLower t) w))

/-- Python falsity of an optional string field, as in the missing-field
tests of enhance_content (not value). -/
def pyFalsy (o : Option String) : Bool :=
  match o with
  | some s => strIsEmpty s
  | none => true

/-- ContentEnhancerAgent.enhance_content: enhance the excerpt, conditionally
improve the title, generate the missing image and category fields in one
batched call, and assemble the EnhancedContent with quality score 0.8.  Any
agent-call failure, or a validation failure of the assembled record, escapes
to the caller as an exception. -/
def enhance_content (out : LLMOut) (c : RawContent) : Except Unit EnhancedContent :=
  match out.excerptResult with
  | .error u => .error u
  | .ok enhancedExcerpt =>
    let aiExcerpt : List String :=
      if some enhancedExcerpt = c.excerpt then [] else ["excerpt"]
    match (if titleNeedsImprovement c.title then
        (match out.titleResult with
         | .error u => .error u
         | .ok t => .ok (t, if t = c.title then ([] : List String) else ["title"]))
      else .ok (c.title, ([] : List String)) :
        Except Unit (String × List String)) with
    | .error u => .error u
    | .ok (enhancedTitle, aiTitle) =>
      let missing : List String :=
        (if pyFalsy c.image then ["image"] else []) ++
          (if pyFalsy c.category then ["category"] else [])
      match (if missing.isEmpty then .ok [] else out.genResult :
          Except Unit (List (String × String))) with
      | .error u => .error u
      | .ok generated =>
        let ai_generated_fields := aiExcerpt ++ aiTitle ++ missing
        mkEnhancedContent
          enhancedTitle
          c.url
          (pyOr c.image ((List.lookup "image" generated).getD "/placeholder-deal.svg"))
          enhancedExcerpt
          (pyOr c.category ((List.lookup "category" generated).getD "General"))
          (pyOr c.date c.scraped_at_date)
          0.8
          ai_generated_fields
          (some ("Enhanced by ContentEnhancerAgent with " ++
            toString ai_generated_fields.length ++ " field(s) improved"))
          (some c)

/-- The degraded substitute ContentPipeline._enhance_content constructs when
a single enhancement call fails, passed through the EnhancedContent
validation. -/
def mkDegraded (c : RawContent) : Except Unit EnhancedContent :=
  mkEnhancedContent
    c.title
    c.url
    (pyOr c.image "/placeholder-deal.svg")
    (pyOr c.excerpt ("Learn more about " ++ c.title))
    (pyOr c.category "General")
    (pyOr c.date c.scraped_at_date)
    0.6
    []
    (some "Enhancement failed, using original content")
    (some c)

/-- The degraded substitute written out field by field: the value mkDegraded
produces when the validation passes. -/
def degradedSpec (c : RawContent) : EnhancedContent :=
  { title := pyRStrip (pyStrip c.title) ['!', '?', '.']
    url := pyStrip c.url
    image := pyStrip (pyOr c.image "/placeholder-deal.svg")
    excerpt := stripShortEllipsis (pyStrip (pyOr c.excerpt ("Learn more about " ++ c.title)))
    category := pyTitle (pyStrip (pyOr c.category "General"))
    date := pyStrip (pyOr c.date c.scraped_at_date)
    quality_score := 0.6
    ai_generated_fields := []
    enhancement_notes := some "Enhancement failed, using original content"
    original_content := some c }

/-- The conditions under which the degraded substitute of a raw item passes
EnhancedContent validation: the scraper-guaranteed non-blank title and
non-blank excerpt/category fallbacks, a content URL passing the HttpUrl
check, an image value that passes it too (since the placeholder fallback
never does, this means the item already carries a valid http(s) image), and
an excerpt fallback within the length bounds. -/
def validRaw (c : RawContent) : Prop :=
  strIsEmpty (pyStrip c.title) = false ∧
    isHttpUrl (pyStrip c.url) = true ∧
    isHttpUrl (pyStrip (pyOr c.image "/placeholder-deal.svg")) = true ∧
    10 ≤ (pyStrip (pyOr c.excerpt ("Learn more about " ++ c.title))).data.length ∧
    (pyStrip (pyOr c.excerpt ("Learn more about " ++ c.title))).data.length ≤ 500 ∧
    strIsEmpty (pyStrip (pyOr c.excerpt ("Learn more about " ++ c.title))) = false ∧
    strIsEmpty (pyStrip (pyOr c.category "General")) = false

instance (c : RawContent) : Decidable (validRaw c) := by
  unfold validRaw; infer_instance

/-- One iteration of the enhancement loop of ContentPipeline._enhance_content:
the agent result if the call succeeds, the degraded substitute otherwise. -/
def enhanceItem (enhancer : RawContent → Except Unit EnhancedContent)
    (c : RawContent) : Except Unit EnhancedContent :=
  match enhancer c with
  | .ok e => .ok e
  | .error _ => mkDegraded c

/-- The enhancement loop of ContentPipeline._enhance_content.  Items are
processed in order; a failed call is replaced by the degraded substitute and
counted as an error.  If constructing the substitute itself raises, the
exception reaches the outer handler of _enhance_content, which drops the
work done so far and returns the empty list with one more error.  (The
batch-of-5 slicing and inter-batch sleep do not affect the result and are
not modelled.) -/
def enhanceBatchGo (enhancer : RawContent → Except Unit EnhancedContent) :
    List RawContent → List EnhancedContent → Nat → List EnhancedContent × Nat
  | [], acc, errs => (acc.reverse, errs)
  | c :: rest, acc, errs =>
    match enhancer c with
    | .ok e => enhanceBatchGo enhancer rest (e :: acc) errs
    | .error _ =>
      match mkDegraded c with
      | .ok d => enhanceBatchGo enhancer rest (d :: acc) (errs + 1)
      | .error _ => ([], errs + 1)

/-- ContentPipeline._enhance_content: run the loop with the error counter
threaded from the pipeline statistics. -/
def pipelineEnhanceContent (enhancer : RawContent → Except Unit EnhancedContent)
    (raw : List RawContent) (errs : Nat) : List EnhancedContent × Nat :=
  enhanceBatchGo enhancer raw [] errs

/-- ContentPipeline._convert_raw_to_enhanced: the pass-through conversion
used when AI enhancement is disabled, assigning quality score 0.7; an item
whose conversion fails validation is skipped and counted as an error. -/
def convertRawToEnhanced : List RawContent → Nat → List EnhancedContent × Nat
  | [], errs => ([], errs)
  | c :: rest, errs =>
    match mkEnhancedContent
        c.title c.url
        (pyOr c.image "/placeholder-deal.svg")
        (pyOr c.excerpt ("Learn more about " ++ c.title))
        (pyOr c.category "General")
        (pyOr c.date c.scraped_at_date)
        0.7 [] (some "No AI enhancement applied") (some c) with
    | .ok e =>
      let (es, errs') := convertRawToEnhanced rest errs
      (e :: es, errs')
    | .error _ => convertRawToEnhanced rest (errs + 1)

/-! ## Site configuration (src/scraper/models/config.py) -/

/-- ScraperType: the supported scraper kinds. -/
inductive ScraperType where
  | rss
  | wordpress
  | custom
deriving DecidableEq

/-- ContentMapping: the configured field paths. -/
structure ContentMapping where
  title : String
  url : String
  image : String
  excerpt : String
  category : Option String
  date : Option String
deriving DecidableEq

/-- SiteConfig: the per-run configuration, already validated by the loader
(the out-of-scope configuration validator); affiliate_tag is None or a
non-blank tag. -/
structure SiteConfig where
  site_name : String
  scraper_type : ScraperType
  feeds : List String
  content_mapping : ContentMapping
  update_interval : Nat
  ai_enhancement_enabled : Bool
  affiliate_tag : Option String
deriving DecidableEq

/-! ## Output projection (src/scraper/models/output.py) -/

/-- DealOutput: the record written to the output JSON, field for field the
React Deal interface. -/
structure DealOutput where
  id : String
  title : String
  imageUrl : String
  price : ℚ
  originalPrice : ℚ
  discountPercent : ℤ
  category : String
  description : String
  affiliateUrl : String
  featured : Bool
  dateAdded : String
deriving DecidableEq, Inhabited

/-- The id cleaning of validate_deal_id: strip, spaces to hyphens, lower
case, keep only alphanumerics and hyphen and underscore, truncate to 50. -/
def pyCleanId (s : String) : String :=
  let v := ((pyStrip s).data.map (fun c => if c = ' ' then '-' else c)).map Char.toLower
  ⟨(v.filter (fun c => c.isAlphanum || c = '-' || c = '_')).take 50⟩

/-- A plain YYYY-MM-DD date string shape, as strptime with the %Y-%m-%d
format accepts (the calendar range checks of the platform parser are
abstracted away; no claim touches them). -/
def isYmdShape (s : String) : Bool :=
  match s.data with
  | [y1, y2, y3, y4, h1, m1, m2, h2, d1, d2] =>
    y1.isDigit && y2.isDigit && y3.isDigit && y4.isDigit &&
      h1 = '-' && m1.isDigit && m2.isDigit && h2 = '-' && d1.isDigit && d2.isDigit
  | _ => false

/-- The validate_date_added validator: a blank date becomes the current
date; an ISO string with a time part is reparsed and reduced to its date
part; a plain date is kept; anything unparseable becomes the current date. -/
def normalizeDateAdded (today v : String) : String :=
  if strIsEmpty v then today
  else if v.data.contains 'T' then
    (if isYmdShape (strTake 10 v) then strTake 10 v else today)
  else
    (if isYmdShape v then v else today)

/-- The DealOutput record the validators produce when every check passes:
the string fields are stripped; a blank imageUrl becomes the placeholder;
the original price is raised to the current price when smaller; the discount
percent is recomputed from the validated price pair when that pair is
meaningful, kept (capped at 100) when itself positive, and zeroed otherwise;
a blank category becomes General, a non-blank one is title-cased; the date
is normalised against the current date. -/
def dealOutputValue (today : String) (id title imageUrl : String)
    (price originalPrice : ℚ) (discountPercent : ℤ)
    (category description affiliateUrl : String) (featured : Bool)
    (dateAdded : String) : DealOutput :=
  let originalPrice' := if originalPrice < price then price else originalPrice
  { id := pyCleanId (pyStrip id)
    title := pyStrip title
    imageUrl :=
      if strIsEmpty (pyStrip imageUrl) then "/placeholder-deal.svg" else pyStrip imageUrl
    price := price
    originalPrice := originalPrice'
    discountPercent :=
      if 0 < originalPrice' ∧ 0 < price ∧ price < originalPrice' then
        min (pyIntTrunc ((originalPrice' - price) / originalPrice' * 100)) 100
      else if 0 < discountPercent then min discountPercent 100
      else 0
    category := if strIsEmpty (pyStrip category) then "General" else pyTitle (pyStrip category)
    description := pyStrip description
    affiliateUrl := pyStrip affiliateUrl
    featured := featured
    dateAdded := normalizeDateAdded today (pyStrip dateAdded) }

/-- Construction of a DealOutput value through its pydantic validation: the
id, title, description and affiliateUrl must be non-blank after stripping,
the prices non-negative, and the provided discount percent within [0, 100];
when the checks pass the validators produce dealOutputValue. -/
def mkDealOutput (today : String) (id title imageUrl : String)
    (price originalPrice : ℚ) (discountPercent : ℤ)
    (category description affiliateUrl : String) (featured : Bool)
    (dateAdded : String) : Except Unit DealOutput :=
  if strIsEmpty (pyStrip id) ∨ strIsEmpty (pyStrip title)
      ∨ price < 0 ∨ originalPrice < 0
      ∨ discountPercent < 0 ∨ 100 < discountPercent
      ∨ strIsEmpty (pyStrip description) ∨ strIsEmpty (pyStrip affiliateUrl) then
    .error ()
  else
    .ok (dealOutputValue today id title imageUrl price originalPrice discountPercent
      category description affiliateUrl featured dateAdded)

/-- A twelve-digit hexadecimal digit. -/
def hexDigit (n : Nat) : Char :=
  if n < 10 then Char.ofNat ('0'.toNat + n) else Char.ofNat ('a'.toNat + n - 10)

/-- Model of hashlib.md5 hexdigest truncated to 12 characters, the id seed
of convert_to_deal_output.  The cryptographic digest is an external library;
only its determinism, hexadecimal alphabet and fixed length reach the rest
of the pipeline, so a simple deterministic 48-bit fold stands in for it. -/
def digestHex12 (s : String) : String :=
  let h := s.data.foldl (fun a c => (a * 131 + c.toNat) % (2 ^ 48)) 7
  ⟨((List.range 12).map (fun i => hexDigit (h / 16 ^ i % 16))).reverse⟩

/-- The featured flag of convert_to_deal_output: Python evaluates the
quality score for truthiness first, so a zero score is never featured and
otherwise the 0.8 threshold decides. -/
def featuredOf (quality_score : ℚ) : Bool :=
  if quality_score = 0 then false else decide (0.8 < quality_score)

/-- convert_to_deal_output: derive the stable id from title and url, append
the affiliate tag as a query parameter when the configuration has a tag and
the lower-cased content URL contains amazon (choosing the separator by
whether the URL already has a query string), and build the DealOutput with
hard-coded zero prices and discount. -/
def convert_to_deal_output (content : EnhancedContent) (config : SiteConfig)
    (today : String) : Except Unit DealOutput :=
  let content_hash := digestHex12 (content.title ++ content.url)
  let affiliate_url :=
    match config.affiliate_tag with
    | some tag =>
      if strIsEmpty tag = false ∧ containsStr (pyLower content.url) "amazon" then
        content.url ++ (if content.url.data.contains '?' then "&" else "?") ++ "tag=" ++ tag
      else content.url
    | none => content.url
  mkDealOutput today content_hash content.title content.image 0 0 0
    content.category content.excerpt affiliate_url
    (featuredOf content.quality_score) content.date

/-! ## Pipeline orchestration (src/scraper/main.py) -/

/-- OutputSummary: the run statistics the pipeline reports.  The wall-clock
generation time is not modelled. -/
structure OutputSummary where
  total_items : Nat
  successful_items : Nat
  failed_items : Nat
  output_file : String
  average_quality_score : ℚ
  ai_enhanced_count : Nat
  categories : List String
deriving DecidableEq

/-- The success_rate property of OutputSummary, as a percentage, zero when
nothing was processed. -/
def OutputSummary.success_rate (s : OutputSummary) : ℚ :=
  if s.total_items = 0 then 0
  else (s.successful_items : ℚ) / (s.total_items : ℚ) * 100

/-- ContentPipeline._generate_output: project every validated item,
skipping and counting items whose projection fails. -/
def generateOutput (config : SiteConfig) (today : String) :
    List EnhancedContent → Nat → List DealOutput × Nat
  | [], errs => ([], errs)
  | c :: rest, errs =>
    match convert_to_deal_output c config today with
    | .ok d =>
      let (ds, errs') := generateOutput config today rest errs
      (d :: ds, errs')
    | .error _ => generateOutput config today rest (errs + 1)

/-- ContentPipeline._create_output_summary from the tracked statistics and
the produced output list.  The average quality proxy of the source sums the
featured booleans; the category list is the deduplicated set (the source
materialises a Python set, whose order the model fixes as first-occurrence
order). -/
def createOutputSummary (total_scraped total_output errors : Nat)
    (ai_enabled : Bool) (total_enhanced : Nat) (output_path : String)
    (output_data : List DealOutput) : OutputSummary :=
  { total_items := total_scraped
    successful_items := total_output
    failed_items := errors
    output_file := output_path
    average_quality_score :=
      if output_data.isEmpty then 0
      else ((output_data.filter (fun d => d.featured)).length : ℚ) / (output_data.length : ℚ)
    ai_enhanced_count := if ai_enabled then total_enhanced else 0
    categories := (output_data.map (fun d => d.category)).dedup }

/-- The observable outcome of one pipeline run: the returned summary and
the JSON array written to the output path, or none when the write phase was
never reached. -/
structure PipelineResult where
  summary : OutputSummary
  written : Option (List DealOutput)
deriving DecidableEq

/-- ContentPipeline.run_pipeline.  The scrape phase is abstracted into the
scraped list (scrape_all_feeds isolates per-source failures internally and
returns what it got); the AI stages are driven by the enhancer oracle and
the validator verdicts; write_ok tells whether the output-file write would
succeed, an I/O failure there escaping as the run failure.  When nothing was
scraped the run returns its summary early, before the output-writing phase. -/
def run_pipeline (config : SiteConfig) (ai_enabled : Bool)
    (scraped : List RawContent)
    (enhancer : RawContent → Except Unit EnhancedContent)
    (quality_results : List QualityResult)
    (today : String) (output_path : String) (write_ok : Bool) :
    Except Unit PipelineResult :=
  let total_scraped := scraped.length
  if scraped.isEmpty then
    .ok ⟨createOutputSummary total_scraped 0 0 ai_enabled 0 output_path [], none⟩
  else
    let (validated, errs1, total_enhanced) :=
      if ai_enabled then
        let (enhanced, e1) := pipelineEnhanceContent enhancer scraped 0
        (filter_high_quality_content enhanced quality_results, e1, enhanced.length)
      else
        let (converted, e1) := convertRawToEnhanced scraped 0
        (converted, e1, converted.length)
    let (output_data, errs2) := generateOutput config today validated errs1
    if write_ok then
      .ok ⟨createOutputSummary total_scraped output_data.length errs2 ai_enabled
            total_enhanced output_path output_data, some output_data⟩
    else
      .error ()

/-! ## Shared sample data and helper lemmas -/

/-- The document of the field-extraction example in the specification. -/
def docExample : JVal :=
  .obj [("a", .obj [("b", .arr [.obj [("url", .str "X")]])])]

/-- A sample scraped item, as the RSS adapter would produce it (no image). -/
def sampleRaw : RawContent :=
  { title := "Hot Deal"
    url := "https://example.com/deal"
    image := none
    excerpt := some "A nice deal on things"
    category := some "Tech"
    date := some "2025-01-02"
    scraped_at_date := "2025-01-03"
    scraper_type := "rss"
    source_url := "https://example.com/feed" }

/-- The sample scraped item with a valid image URL present, so that its
degraded substitute and pass-through conversion validate. -/
def sampleRawImg : RawContent :=
  { sampleRaw with image := some "https://example.com/i.jpg" }

/-- A sample validated site configuration with an affiliate tag. -/
def sampleConfig : SiteConfig :=
  { site_name := "Site"
    scraper_type := .rss
    feeds := ["https://example.com/feed"]
    content_mapping :=
      { title := "title", url := "link", image := "image", excerpt := "summary"
        category := none, date := none }
    update_interval := 3600
    ai_enhancement_enabled := true
    affiliate_tag := some "tag123" }

/-- A sample enhanced item whose URL mentions amazon in its path only. -/
def sampleEnhanced : EnhancedContent :=
  { title := "Great Offer"
    url := "https://example.com/amazon-deals"
    image := "https://example.com/i.jpg"
    excerpt := "A useful long excerpt"
    category := "General"
    date := "2025-01-02"
    quality_score := 0.7
    ai_generated_fields := []
    enhancement_notes := none
    original_content := none }

/-- A successful mkEnhancedContent call yields exactly the record with the
validator transformations applied to each field. -/
theorem mkEnhancedContent_ok_eq {t u img ex cat dt : String} {qs : ℚ}
    {aif : List String} {notes : Option String} {orig : Option RawContent}
    {e : EnhancedContent}
    (h : mkEnhancedContent t u img ex cat dt qs aif notes orig = .ok e) :
    e = { title := pyRStrip (pyStrip t) ['!', '?', '.']
          url := pyStrip u
          image := pyStrip img
          excerpt := stripShortEllipsis (pyStrip ex)
          category := pyTitle (pyStrip cat)
          date := pyStrip dt
          quality_score := qs
          ai_generated_fields := aif
          enhancement_notes := notes
          original_content := orig } := by
  unfold mkEnhancedContent at h
  split_ifs at h
  exact (Except.ok.injEq _ _).mp h.symm

/-- A successful mkDealOutput call yields exactly dealOutputValue. -/
theorem mkDealOutput_ok_eq {today id title imageUrl : String}
    {price originalPrice : ℚ} {dp : ℤ} {cat desc aff : String} {f : Bool}
    {da : String} {d : DealOutput}
    (h : mkDealOutput today id title imageUrl price originalPrice dp cat desc aff f da = .ok d) :
    d = dealOutputValue today id title imageUrl price originalPrice dp cat desc aff f da := by
  unfold mkDealOutput at h
  split_ifs at h
  cases h
  rfl

/-- A successful mkDealOutput call passes the featured flag through. -/
theorem mkDealOutput_ok_featured {today id title imageUrl : String}
    {price originalPrice : ℚ} {dp : ℤ} {cat desc aff : String} {f : Bool}
    {da : String} {d : DealOutput}
    (h : mkDealOutput today id title imageUrl price originalPrice dp cat desc aff f da = .ok d) :
    d.featured = f := by
  rw [mkDealOutput_ok_eq h]
  rfl

/-! ## C5: soft-failing field extraction -/

/-- C5: for every document tree and dot-separated field path, field
extraction never raises (the embedding is a total function); a missing key,
an out-of-range index, or a type mismatch (indexing a scalar) during
traversal yields none; and the terminal coercion resolves the path a.b.0 in
the document with a url mapping at the end to X. -/
theorem extract_field_value_soft_and_example :
    (∀ (fs : List (String × JVal)) (p : String) (rest : List String),
        List.lookup p fs = none → extractParts (.obj fs) (p :: rest) = none)
    ∧ (∀ (xs : List JVal) (p : String) (i : Nat) (rest : List String),
        pyDigits? p = some i → xs.length ≤ i → extractParts (.arr xs) (p :: rest) = none)
    ∧ (∀ (s p : String) (rest : List String),
        extractParts (.str s) (p :: rest) = none)
    ∧ extract_field_value docExample "a.b.0" = some "X" := by
  refine ⟨?_, ?_, ?_, ?_⟩
  · intro fs p rest h
    simp [extractParts, h]
  · intro xs p i rest hp hlen
    simp [extractParts, hp, List.getElem?_eq_none hlen]
  · intro s p rest
    simp [extractParts]
  · decide

/-- Witness for C5: the three soft-failure clauses instantiated at concrete
inputs (a missing mapping key, the index 5 into a one-element sequence, and
a scalar being indexed). -/
theorem extract_field_value_soft_and_example_witness :
    extractParts (.obj [("k", .str "v")]) ["missing"] = none
    ∧ extractParts (.arr [.num 1]) ["5"] = none
    ∧ extractParts (.str "scalar") ["a"] = none :=
  ⟨extract_field_value_soft_and_example.1 [("k", .str "v")] "missing" [] rfl,
   extract_field_value_soft_and_example.2.1 [.num 1] "5" 5 [] (by decide) (by decide),
   extract_field_value_soft_and_example.2.2.1 "scalar" "a" []⟩

/-! ## C3: conditional fetch and the header cache -/

/-- The C3 claim as stated: a 304 fetch yields the empty item list with the
cache untouched, and the cache entry is updated with the latest header pair
exactly on a successful 2xx response. -/
def claimC3Statement : Prop :=
  ∀ (cache : Cache) (url : String) (resp : HttpResponse) (parsed : List RawContent),
    (resp.status = 304 → scrape_feed cache url (some resp) parsed = ([], cache))
    ∧ (200 ≤ resp.status ∧ resp.status < 300 →
        (makeRequest cache url true (some resp)).2 =
          cacheSet cache url ⟨resp.etag, resp.lastModified⟩)
    ∧ (¬ (200 ≤ resp.status ∧ resp.status < 300) →
        (makeRequest cache url true (some resp)).2 = cache)

/-- Counterexample for C3: a 404 response carrying an ETag header also
overwrites the cache entry, because _make_request stores the headers before
raise_for_status runs, so the update is not restricted to 2xx responses. -/
theorem makeRequest_cache_claim_false : ¬ claimC3Statement := by
  intro h
  have h404 :=
    (h [("u", ⟨some "abc123", none⟩)] "u" ⟨404, some "etag2", none, ""⟩ []).2.2
      (by decide)
  have hcomp :
      (makeRequest [("u", (⟨some "abc123", none⟩ : CacheEntry))] "u" true
        (some ⟨404, some "etag2", none, ""⟩)).2 =
        [("u", ⟨some "etag2", none⟩)] := rfl
  rw [hcomp] at h404
  exact absurd h404 (by decide)

/-- C3 amended: a 304 fetch yields the empty item list and an unchanged
cache, and a network failure leaves the cache unchanged; but the cache entry
is overwritten with the observed ETag and Last-Modified pair on every
non-304 response that carries at least one of the two headers while caching
is enabled, including 4xx and 5xx error responses (the update precedes the
status check). -/
theorem makeRequest_cache_characterization :
    (∀ (cache : Cache) (url : String) (parsed : List RawContent)
        (e lm : Option String) (b : String),
        scrape_feed cache url (some ⟨304, e, lm, b⟩) parsed = ([], cache))
    ∧ (∀ (cache : Cache) (url : String) (uc : Bool) (r : HttpResponse),
        (makeRequest cache url uc (some r)).2 =
          if r.status ≠ 304 ∧ uc ∧ (r.etag.isSome ∨ r.lastModified.isSome) then
            cacheSet cache url ⟨r.etag, r.lastModified⟩
          else cache)
    ∧ (∀ (cache : Cache) (url : String) (uc : Bool),
        makeRequest cache url uc none = (none, cache)) := by
  refine ⟨?_, ?_, ?_⟩
  · intro cache url parsed e lm b
    simp [scrape_feed, makeRequest]
  · intro cache url uc r
    unfold makeRequest
    by_cases h304 : r.status = 304
    · simp [h304]
    · by_cases hhdr : uc ∧ (r.etag.isSome ∨ r.lastModified.isSome)
      · by_cases hge : 400 ≤ r.status <;> simp [h304, hhdr, hge]
      · by_cases hge : 400 ≤ r.status <;> simp [h304, hhdr, hge]
  · intro cache url uc
    rfl

/-! ## C8: quality filtering -/

/-- The filtering loop kept in accumulator form equals its filter-then-map
description. -/
theorem filterHighQualityGo_eq (l : List (EnhancedContent × QualityResult)) :
    filterHighQualityGo l =
      (l.filter (fun p =>
          decide (p.2.recommendation = ContentStatus.validated ∨
            p.2.recommendation = ContentStatus.enhanced))).map
        (fun p => { p.1 with quality_score := p.2.overall_quality_score }) := by
  induction l with
  | nil => rfl
  | cons hd tl ih =>
    obtain ⟨c, q⟩ := hd
    by_cases h : q.recommendation = ContentStatus.validated ∨
        q.recommendation = ContentStatus.enhanced
    · simp [filterHighQualityGo, h, ih]
    · simp [filterHighQualityGo, h, ih]

/-- C8: an item survives quality filtering exactly when its verdict is
publish-as-is (validated) or publish-after-enhancement (enhanced), and every
survivor has its quality_score overwritten with the validated overall
score. -/
theorem filter_survives_iff :
    ∀ (content_list : List EnhancedContent) (quality_results : List QualityResult),
      filter_high_quality_content content_list quality_results =
        ((content_list.zip quality_results).filter (fun p =>
            decide (p.2.recommendation = ContentStatus.validated ∨
              p.2.recommendation = ContentStatus.enhanced))).map
          (fun p => { p.1 with quality_score := p.2.overall_quality_score }) := by
  intro cs qs
  exact filterHighQualityGo_eq (cs.zip qs)

/-! ## C7: discount computation -/

/-- C7: the discount percent of a validated DealOutput is recomputed from
the input price pair (capped at 100) whenever both prices are positive and
the original exceeds the current, falls back to the provided value capped at
100 when that is positive, and is zero otherwise; in particular the pair
49.99 and 99.99 recomputes to 50, and the pair 0 and 0 with provided
discount 30 keeps 30. -/
theorem discount_recompute_spec :
    (∀ (today id title imageUrl : String) (price originalPrice : ℚ) (v : ℤ)
        (category description affiliateUrl : String) (featured : Bool)
        (dateAdded : String) (d : DealOutput),
        mkDealOutput today id title imageUrl price originalPrice v category
            description affiliateUrl featured dateAdded = .ok d →
        d.discountPercent =
          if 0 < price ∧ price < originalPrice then
            min (pyIntTrunc ((originalPrice - price) / originalPrice * 100)) 100
          else if 0 < v then min v 100
          else 0)
    ∧ (∀ d : DealOutput,
        mkDealOutput "2026-01-01" "abc" "T" "i" 49.99 99.99 0 "c" "D"
            "https://e.com/x" false "2025-01-02" = .ok d →
        d.discountPercent = 50)
    ∧ (∀ d : DealOutput,
        mkDealOutput "2026-01-01" "abc" "T" "i" 0 0 30 "c" "D"
            "https://e.com/x" false "2025-01-02" = .ok d →
        d.discountPercent = 30) := by
  have main : ∀ (today id title imageUrl : String) (price originalPrice : ℚ) (v : ℤ)
      (category description affiliateUrl : String) (featured : Bool)
      (dateAdded : String) (d : DealOutput),
      mkDealOutput today id title imageUrl price originalPrice v category
          description affiliateUrl featured dateAdded = .ok d →
      d.discountPercent =
        if 0 < price ∧ price < originalPrice then
          min (pyIntTrunc ((originalPrice - price) / originalPrice * 100)) 100
        else if 0 < v then min v 100
        else 0 := by
    intro today id title imageUrl price originalPrice v category description
      affiliateUrl featured dateAdded d h
    rw [mkDealOutput_ok_eq h]
    simp only [dealOutputValue]
    by_cases hlt : originalPrice < price
    · simp only [if_pos hlt]
      have hc1 : ¬ (0 < price ∧ 0 < price ∧ price < price) := by
        rintro ⟨_, _, hpp⟩
        exact lt_irrefl _ hpp
      have hc2 : ¬ (0 < price ∧ price < originalPrice) := by
        rintro ⟨_, hpo⟩
        exact absurd hlt (not_lt.mpr hpo.le)
      rw [if_neg hc1, if_neg hc2]
    · simp only [if_neg hlt]
      by_cases hc : 0 < price ∧ price < originalPrice
      · have hfull : 0 < originalPrice ∧ 0 < price ∧ price < originalPrice :=
          ⟨lt_trans hc.1 hc.2, hc⟩
        rw [if_pos hfull, if_pos hc]
      · have hfull : ¬ (0 < originalPrice ∧ 0 < price ∧ price < originalPrice) := by
          rintro ⟨_, hp, hpo⟩
          exact hc ⟨hp, hpo⟩
        rw [if_neg hfull, if_neg hc]
  refine ⟨main, ?_, ?_⟩
  · intro d h
    rw [main _ _ _ _ _ _ _ _ _ _ _ _ d h]
    rw [if_pos (by norm_num : (0 : ℚ) < 49.99 ∧ (49.99 : ℚ) < 99.99)]
    have hval : ((99.99 : ℚ) - 49.99) / 99.99 * 100 = 500000 / 9999 := by norm_num
    rw [hval]
    norm_num [pyIntTrunc]
  · intro d h
    rw [main _ _ _ _ _ _ _ _ _ _ _ _ d h]
    norm_num

/-- Witness for C7: a concrete projection succeeds and its discount percent
is what the theorem predicts (75, recomputed from the pair 10 and 40). -/
theorem discount_recompute_spec_witness :
    mkDealOutput "2026-01-01" "w7" "Title" "img" 10 40 0 "cat" "Desc"
        "https://example.com/x" false "2025-03-04" =
      .ok (dealOutputValue "2026-01-01" "w7" "Title" "img" 10 40 0 "cat" "Desc"
        "https://example.com/x" false "2025-03-04")
    ∧ (dealOutputValue "2026-01-01" "w7" "Title" "img" 10 40 0 "cat" "Desc"
        "https://example.com/x" false "2025-03-04").discountPercent =
      (if (0 : ℚ) < 10 ∧ (10 : ℚ) < 40 then
        min (pyIntTrunc (((40 : ℚ) - 10) / 40 * 100)) 100
      else if (0 : ℤ) < 0 then min 0 100 else 0) := by
  have hok : mkDealOutput "2026-01-01" "w7" "Title" "img" 10 40 0 "cat" "Desc"
      "https://example.com/x" false "2025-03-04" =
      .ok (dealOutputValue "2026-01-01" "w7" "Title" "img" 10 40 0 "cat" "Desc"
        "https://example.com/x" false "2025-03-04") := by
    with_unfolding_all rfl
  exact ⟨hok, discount_recompute_spec.1 _ _ _ _ _ _ _ _ _ _ _ _ _ hok⟩

/-! ## C9: the projector hardcodes zero prices -/

/-- C9: every Output Record the projector produces has zero price, zero
original price and zero discount percent, so the discount-recomputation
branch is never exercised on pipeline-produced records. -/
theorem convert_zero_prices :
    ∀ (c : EnhancedContent) (cfg : SiteConfig) (today : String) (d : DealOutput),
      convert_to_deal_output c cfg today = .ok d →
      d.price = 0 ∧ d.originalPrice = 0 ∧ d.discountPercent = 0 := by
  intro c cfg today d h
  simp only [convert_to_deal_output] at h
  rw [mkDealOutput_ok_eq h]
  refine ⟨rfl, ?_, ?_⟩ <;> simp [dealOutputValue]

/-- The concrete record the projector produces for the sample enhanced item
under the sample configuration. -/
def sampleDeal : DealOutput :=
  match convert_to_deal_output sampleEnhanced sampleConfig "2026-01-01" with
  | .ok d => d
  | .error _ => default

/-- Witness for C9: the sample projection succeeds and carries the three
zero price fields. -/
theorem convert_zero_prices_witness :
    sampleDeal.price = 0 ∧ sampleDeal.originalPrice = 0 ∧ sampleDeal.discountPercent = 0 :=
  convert_zero_prices sampleEnhanced sampleConfig "2026-01-01" sampleDeal
    (by with_unfolding_all rfl)

/-! ## C6: affiliate URL rewriting -/

/-- The host part of a URL: what stands between the scheme separator and the
first slash, query or fragment delimiter. -/
def urlHostOf (url : String) : String :=
  match dropThroughFirst "://".data url.data with
  | some rest => ⟨rest.takeWhile (fun c => !(c = '/' || c = '?' || c = '#'))⟩
  | none => ""

/-- The C6 claim as stated: the affiliate tag is appended exactly when the
tag is set and the host of the URL contains amazon, with the separator
chosen by the presence of a query string, and the URL is unchanged
otherwise. -/
def claimC6Statement : Prop :=
  ∀ (c : EnhancedContent) (cfg : SiteConfig) (today : String) (d : DealOutput),
    convert_to_deal_output c cfg today = .ok d →
    d.affiliateUrl =
      (match cfg.affiliate_tag with
       | some tag =>
         if strIsEmpty tag = false ∧ containsStr (pyLower (urlHostOf c.url)) "amazon" then
           c.url ++ (if c.url.data.contains '?' then "&" else "?") ++ "tag=" ++ tag
         else c.url
       | none => c.url)

/-- Counterexample for C6: with the tag set and the URL
https://example.com/amazon-deals, whose host example.com does not contain
amazon, the code still appends the tag, because it searches the whole
lower-cased URL rather than its host. -/
theorem convert_affiliate_host_claim_false : ¬ claimC6Statement := by
  intro h
  have hc := h sampleEnhanced sampleConfig "2026-01-01" sampleDeal
    (by with_unfolding_all rfl)
  exact absurd hc (of_decide_eq_false (by with_unfolding_all rfl))

/-- C6 amended: the affiliate tag is appended as a query parameter exactly
when the tag is set and the whole lower-cased URL contains amazon (with &
as separator when the URL already contains a question mark and ? otherwise);
in every other case the affiliate URL is the original URL (stripped of
surrounding whitespace by the output validator). -/
theorem convert_affiliate_url_spec :
    ∀ (c : EnhancedContent) (cfg : SiteConfig) (today : String) (d : DealOutput),
      convert_to_deal_output c cfg today = .ok d →
      d.affiliateUrl =
        pyStrip (match cfg.affiliate_tag with
          | some tag =>
            if strIsEmpty tag = false ∧ containsStr (pyLower c.url) "amazon" then
              c.url ++ (if c.url.data.contains '?' then "&" else "?") ++ "tag=" ++ tag
            else c.url
          | none => c.url) := by
  intro c cfg today d h
  simp only [convert_to_deal_output] at h
  rw [mkDealOutput_ok_eq h]
  rfl

/-- Witness for C6 amended: the sample projection appends the tag with the
question-mark separator. -/
theorem convert_affiliate_url_spec_witness :
    sampleDeal.affiliateUrl = "https://example.com/amazon-deals?tag=tag123" := by
  have h := convert_affiliate_url_spec sampleEnhanced sampleConfig "2026-01-01" sampleDeal
    (by with_unfolding_all rfl)
  rw [h]
  with_unfolding_all rfl

/-! ## C2: the placeholder image default crashes instead of defaulting -/

/-- An LLM outcome for an item with a missing image whose batched generation
call yields no image value (the no-image-can-be-generated case of the
claim). -/
def llmNoImage : LLMOut :=
  { excerptResult := .ok "Nice excerpt here"
    titleResult := .ok "Hot Deal Improved"
    genResult := .ok [] }

/-- C2: the claimed defaulting behavior cannot happen in the code.  The
placeholder asset path fails the HttpUrl check of the EnhancedContent
image field, so when an item with image = null goes through the enhancement
stage and no image can be generated, the agent call raises at construction,
the orchestrator fallback (which supplies the same placeholder) raises too,
and the stage yields an exception instead of an EnhancedContent carrying
the placeholder. -/
theorem enhancement_placeholder_crashes :
    isHttpUrl "/placeholder-deal.svg" = false
    ∧ sampleRaw.image = none
    ∧ enhance_content llmNoImage sampleRaw = .error ()
    ∧ enhanceItem (enhance_content llmNoImage) sampleRaw = .error () := by
  refine ⟨rfl, rfl, ?_, ?_⟩ <;> with_unfolding_all rfl

/-! ## C4: single-item enhancement failure and the batch -/

/-- A consequence of the C4 claim as stated: since every failing item is
replaced by a degraded substitute and processing continues with the
remaining items, the enhancement phase returns one entry per input. -/
def claimC4Statement : Prop :=
  ∀ (enhancer : RawContent → Except Unit EnhancedContent)
    (raws : List RawContent) (errs : Nat),
    ((pipelineEnhanceContent enhancer raws errs).1).length = raws.length

/-- Counterexample for C4: for a one-item batch whose item has no image and
whose enhancement call raises, constructing the degraded substitute itself
raises (the placeholder fails the HttpUrl check), the exception reaches the
outer handler of _enhance_content, and the phase returns the empty list:
the batch is aborted rather than continued. -/
theorem enhance_batch_abort_claim_false : ¬ claimC4Statement := by
  intro h
  have hc := h (fun _ => Except.error ()) [sampleRaw] 0
  rw [show (pipelineEnhanceContent (fun _ => Except.error ()) [sampleRaw] 0).1 =
      [] from by with_unfolding_all rfl] at hc
  cases hc

/-- For a raw item whose degraded substitute passes the EnhancedContent
validation, that substitute is exactly degradedSpec. -/
theorem mkDegraded_ok {c : RawContent} (h : validRaw c) :
    mkDegraded c = .ok (degradedSpec c) := by
  obtain ⟨h1, h2, h3, h4, h5, h6, h7⟩ := h
  unfold mkDegraded mkEnhancedContent
  rw [h1, h2, h3, h6, h7]
  rw [if_neg (by omega :
    ¬ ((pyStrip (pyOr c.excerpt ("Learn more about " ++ c.title))).data.length < 10 ∨
       500 < (pyStrip (pyOr c.excerpt ("Learn more about " ++ c.title))).data.length))]
  norm_num [degradedSpec]

/-- The enhancement loop maps every item to its enhanced or degraded result,
keeping the items already accumulated. -/
theorem enhanceBatchGo_spec (enhancer : RawContent → Except Unit EnhancedContent) :
    ∀ (raws : List RawContent) (acc : List EnhancedContent) (errs : Nat),
      (∀ c ∈ raws, validRaw c) →
      (enhanceBatchGo enhancer raws acc errs).1 =
        acc.reverse ++ raws.map (fun c =>
          match enhancer c with
          | .ok e => e
          | .error _ => degradedSpec c) := by
  intro raws
  induction raws with
  | nil => intro acc errs _; simp [enhanceBatchGo]
  | cons c rest ih =>
    intro acc errs hv
    have hc : validRaw c := hv c (List.mem_cons_self c rest)
    have hrest : ∀ x ∈ rest, validRaw x := fun x hx => hv x (List.mem_cons_of_mem c hx)
    cases he : enhancer c with
    | ok e =>
      simp [enhanceBatchGo, he, ih (e :: acc) errs hrest]
    | error u =>
      simp [enhanceBatchGo, he, mkDegraded_ok hc, ih (degradedSpec c :: acc) (errs + 1) hrest]

/-- C4 amended: when every item in the batch is one whose degraded
substitute passes EnhancedContent validation (in particular, the item
already carries a valid http(s) image, since the placeholder fallback is
rejected), the enhancement phase never aborts on a single-item failure:
its result has one entry per input, the successfully enhanced value where
the agent call succeeded and the degraded substitute where it failed, and
the substitute carries quality score 0.6, an empty AI-field list and the
explanatory note.  Without that proviso the batch is aborted, as the
counterexample shows. -/
theorem enhance_batch_isolates_failures :
    ∀ (enhancer : RawContent → Except Unit EnhancedContent)
      (raws : List RawContent) (errs : Nat),
      (∀ c ∈ raws, validRaw c) →
      (pipelineEnhanceContent enhancer raws errs).1 =
        raws.map (fun c =>
          match enhancer c with
          | .ok e => e
          | .error _ => degradedSpec c)
      ∧ (∀ c : RawContent,
          (degradedSpec c).quality_score = 0.6 ∧
          (degradedSpec c).ai_generated_fields = [] ∧
          (degradedSpec c).enhancement_notes =
            some "Enhancement failed, using original content") := by
  intro enhancer raws errs hv
  refine ⟨?_, fun c => ⟨rfl, rfl, rfl⟩⟩
  have h := enhanceBatchGo_spec enhancer raws [] errs hv
  simpa [pipelineEnhanceContent] using h

/-- Witness for C4: a batch of one item with a valid image whose
enhancement call raises produces exactly the degraded substitute. -/
theorem enhance_batch_isolates_failures_witness :
    (∀ c ∈ [sampleRawImg], validRaw c)
    ∧ (pipelineEnhanceContent (fun _ => Except.error ()) [sampleRawImg] 0).1 =
        [degradedSpec sampleRawImg] := by
  have hv : ∀ c ∈ [sampleRawImg], validRaw c := by
    intro c hc
    rw [List.mem_singleton] at hc
    subst hc
    exact ⟨rfl, rfl, rfl, by decide, by decide, rfl, rfl⟩
  refine ⟨hv, ?_⟩
  have h := (enhance_batch_isolates_failures (fun _ => Except.error ()) [sampleRawImg] 0 hv).1
  rw [h]
  rfl

/-! ## C10: pass-through conversion and the featured flag -/

/-- Every item the pass-through conversion emits has quality score 0.7. -/
theorem convertRawToEnhanced_quality :
    ∀ (raws : List RawContent) (errs : Nat) (e : EnhancedContent),
      e ∈ (convertRawToEnhanced raws errs).1 → e.quality_score = 0.7 := by
  intro raws
  induction raws with
  | nil => intro errs e h; simp [convertRawToEnhanced] at h
  | cons c rest ih =>
    intro errs e h
    rw [convertRawToEnhanced] at h
    cases hmk : mkEnhancedContent c.title c.url
        (pyOr c.image "/placeholder-deal.svg")
        (pyOr c.excerpt ("Learn more about " ++ c.title))
        (pyOr c.category "General")
        (pyOr c.date c.scraped_at_date)
        0.7 [] (some "No AI enhancement applied") (some c) with
    | ok e0 =>
      rw [hmk] at h
      simp only at h
      rcases List.mem_cons.mp h with he | he
      · subst he
        rw [mkEnhancedContent_ok_eq hmk]
      · exact ih errs e he
    | error u =>
      rw [hmk] at h
      exact ih (errs + 1) e h

/-- Every output record produced from a list comes from a successful
projection of one of its items. -/
theorem generateOutput_mem (cfg : SiteConfig) (today : String) :
    ∀ (lst : List EnhancedContent) (errs : Nat) (d : DealOutput),
      d ∈ (generateOutput cfg today lst errs).1 →
      ∃ e ∈ lst, convert_to_deal_output e cfg today = .ok d := by
  intro lst
  induction lst with
  | nil => intro errs d h; simp [generateOutput] at h
  | cons c rest ih =>
    intro errs d h
    rw [generateOutput] at h
    cases hc : convert_to_deal_output c cfg today with
    | ok d0 =>
      rw [hc] at h
      simp only at h
      rcases List.mem_cons.mp h with hd | hd
      · subst hd
        exact ⟨c, List.mem_cons_self c rest, hc⟩
      · obtain ⟨e, he, hconv⟩ := ih errs d hd
        exact ⟨e, List.mem_cons_of_mem c he, hconv⟩
    | error u =>
      rw [hc] at h
      obtain ⟨e, he, hconv⟩ := ih (errs + 1) d h
      exact ⟨e, List.mem_cons_of_mem c he, hconv⟩

/-- C10: with AI enhancement disabled, the pass-through conversion gives
every item quality score 0.7, and consequently every record the output
phase produces from such a run has featured = false. -/
theorem passthrough_quality_and_featured :
    (∀ (raws : List RawContent) (errs : Nat) (e : EnhancedContent),
        e ∈ (convertRawToEnhanced raws errs).1 → e.quality_score = 0.7)
    ∧ (∀ (raws : List RawContent) (errs errs2 : Nat) (cfg : SiteConfig)
        (today : String) (d : DealOutput),
        d ∈ (generateOutput cfg today (convertRawToEnhanced raws errs).1 errs2).1 →
        d.featured = false) := by
  refine ⟨convertRawToEnhanced_quality, ?_⟩
  intro raws errs errs2 cfg today d hd
  obtain ⟨e, he, hconv⟩ := generateOutput_mem cfg today _ errs2 d hd
  have hq := convertRawToEnhanced_quality raws errs e he
  have hf : d.featured = featuredOf e.quality_score := by
    simp only [convert_to_deal_output] at hconv
    exact mkDealOutput_ok_featured hconv
  rw [hf, hq]
  simp only [featuredOf]
  rw [if_neg (by norm_num), decide_eq_false_iff_not]
  norm_num

/-- The single item the pass-through conversion produces from the sample
raw item with an image. -/
def samplePass : EnhancedContent :=
  match (convertRawToEnhanced [sampleRawImg] 0).1 with
  | e :: _ => e
  | [] => default

/-- The single record the output phase produces from the converted sample
item under the sample configuration. -/
def samplePassDeal : DealOutput :=
  match (generateOutput sampleConfig "2026-01-01" (convertRawToEnhanced [sampleRawImg] 0).1 0).1 with
  | d :: _ => d
  | [] => default

/-- Witness for C10: on the one-item sample run without AI, the converted
item carries quality 0.7 and the produced record is not featured. -/
theorem passthrough_quality_and_featured_witness :
    samplePass ∈ (convertRawToEnhanced [sampleRawImg] 0).1
    ∧ samplePass.quality_score = 0.7
    ∧ samplePassDeal ∈
        (generateOutput sampleConfig "2026-01-01" (convertRawToEnhanced [sampleRawImg] 0).1 0).1
    ∧ samplePassDeal.featured = false := by
  have h1 : (convertRawToEnhanced [sampleRawImg] 0).1 = [samplePass] := by
    with_unfolding_all rfl
  have h2 : (generateOutput sampleConfig "2026-01-01"
      (convertRawToEnhanced [sampleRawImg] 0).1 0).1 = [samplePassDeal] := by
    with_unfolding_all rfl
  have hm1 : samplePass ∈ (convertRawToEnhanced [sampleRawImg] 0).1 := by
    rw [h1]; exact List.mem_singleton.mpr rfl
  have hm2 : samplePassDeal ∈
      (generateOutput sampleConfig "2026-01-01" (convertRawToEnhanced [sampleRawImg] 0).1 0).1 := by
    rw [h2]; exact List.mem_singleton.mpr rfl
  exact ⟨hm1, passthrough_quality_and_featured.1 [sampleRawImg] 0 samplePass hm1, hm2,
    passthrough_quality_and_featured.2 [sampleRawImg] 0 0 sampleConfig "2026-01-01"
      samplePassDeal hm2⟩

/-! ## C1: the run with zero scraped items -/

/-- The C1 claim as stated: a run in which zero sources return content
completes with the three zero statistics and still writes an empty-array
JSON file. -/
def claimC1Statement : Prop :=
  ∀ (cfg : SiteConfig) (ai : Bool) (enhancer : RawContent → Except Unit EnhancedContent)
      (qrs : List QualityResult) (today path : String) (w : Bool),
    ∃ r : PipelineResult,
      run_pipeline cfg ai [] enhancer qrs today path w = .ok r ∧
      r.summary.total_items = 0 ∧ r.summary.successful_items = 0 ∧
      r.summary.success_rate = 0 ∧ r.written = some []

/-- Counterexample for C1: on a concrete empty run the pipeline returns its
summary early, before the write phase, so no output file is written at all
(rather than an empty-array file). -/
theorem run_pipeline_empty_claim_false : ¬ claimC1Statement := by
  intro h
  obtain ⟨r, hr, -, -, -, hw⟩ :=
    h sampleConfig true (fun _ => Except.error ()) [] "2026-01-01" "public/data.json" true
  have hcomp : run_pipeline sampleConfig true [] (fun _ => Except.error ()) []
      "2026-01-01" "public/data.json" true =
      .ok ⟨{ total_items := 0, successful_items := 0, failed_items := 0,
             output_file := "public/data.json", average_quality_score := 0,
             ai_enhanced_count := 0, categories := [] }, none⟩ := rfl
  rw [hcomp] at hr
  cases hr
  cases hw

/-- C1 amended: a run in which zero sources return content completes
without raising, its summary reports zero total items, zero successful
items and a success rate of zero, but the pipeline returns before the
write phase: no output file, not even an empty-array one, is written. -/
theorem run_pipeline_empty_run :
    ∀ (cfg : SiteConfig) (ai : Bool) (enhancer : RawContent → Except Unit EnhancedContent)
        (qrs : List QualityResult) (today path : String) (w : Bool),
      run_pipeline cfg ai [] enhancer qrs today path w =
        .ok ⟨{ total_items := 0, successful_items := 0, failed_items := 0,
               output_file := path, average_quality_score := 0,
               ai_enhanced_count := 0, categories := [] }, none⟩
      ∧ ({ total_items := 0, successful_items := 0, failed_items := 0,
           output_file := path, average_quality_score := 0,
           ai_enhanced_count := 0, categories := [] } : OutputSummary).success_rate = 0 := by
  intro cfg ai enhancer qrs today path w
  constructor
  · cases ai <;> rfl
  · rfl

end Scraper
